import Mathlib

/-!
Verification of the label-normalization, evaluation, persistence and
cross-validation orchestration logic of the Predictor class in
src/l134k/predictor.py.

Modelling conventions:
- A numpy float scalar is modelled by NpF below: none models NaN, some q a
  finite value (ℚ stands in for the binary floats; no claim settled here
  depends on rounding, only on which arrays and statistics feed which
  computation).
- Label arrays are 1-D float arrays, one scalar property per molecule
  (spec section 1: a scalar molecular property; predict flattens the model
  output to one value per row), so a label array is a List NpF and
  np.mean(y, axis=0) / np.std(y, axis=0) on a 1-D array are its overall
  population mean and standard deviation.
- Feature rows are opaque (type parameter); the external model is a
  function from one feature row to one flattened scalar output.
- A raised Python exception is an Except.error carrying the message.
- sqrt on finite values is kept as an abstract function parameter
  (it is from numpy, external to this module); NaN propagates through it.
-/

namespace L134k

/-- numpy float scalar: none models NaN, some q a finite value. -/
abbrev NpF := Option ℚ

/-- Addition of numpy float scalars; NaN propagates. -/
def npAdd : NpF → NpF → NpF
  | some a, some b => some (a + b)
  | _, _ => none

/-- Subtraction of numpy float scalars; NaN propagates. -/
def npSub : NpF → NpF → NpF
  | some a, some b => some (a - b)
  | _, _ => none

/-- Multiplication of numpy float scalars; NaN propagates. -/
def npMul : NpF → NpF → NpF
  | some a, some b => some (a * b)
  | _, _ => none

/-- Division of numpy float scalars; NaN propagates.  Division by zero is
modelled as NaN (numpy would give 0/0 = nan; x/0 = inf is collapsed to NaN
as well, which no settled claim depends on). -/
def npDiv : NpF → NpF → NpF
  | some a, some b => if b = 0 then none else some (a / b)
  | _, _ => none

/-- Absolute value of a numpy float scalar; NaN propagates. -/
def npAbs : NpF → NpF := Option.map (fun a => |a|)

/-- Squaring, modelling the float power x**2.0 on a set value; NaN propagates. -/
def npSq (a : NpF) : NpF := npMul a a

/-- Square root with the finite-value square root left abstract; NaN propagates
(numpy: sqrt(nan) = nan). -/
def npSqrt (sq : ℚ → ℚ) : NpF → NpF := Option.map sq

/-- Sum of a 1-D numpy array (np.sum, starting from 0.0); a NaN entry makes the
sum NaN.  Rational addition is associative and commutative, so the fold order
does not matter. -/
def npSum (l : List NpF) : NpF := l.foldr npAdd (some 0)

/-- np.mean of a 1-D array: sum divided by length.  On an empty array this is
0/0, i.e. NaN, exactly the numpy behavior (mean of an empty slice). -/
def npMean (l : List NpF) : NpF := npDiv (npSum l) (some (l.length : ℚ))

/-- Population variance of a 1-D array: mean of squared deviations from the
mean (np.std with the default ddof=0 squares this). -/
def npVarPop (l : List NpF) : NpF :=
  npMean (l.map (fun v => npSq (npSub v (npMean l))))

/-- np.std of a 1-D array with the default ddof=0: the square root of the
population variance. -/
def npStd (sq : ℚ → ℚ) (l : List NpF) : NpF := npSqrt sq (npVarPop l)

/-- Predictor state (predictor.py lines 18-23): an opaque model handle,
modelled as a per-row scalar predictor, and the label-normalization
statistics, which are Python None until set (an unset statistic is distinct
from a stored NaN value, hence Option NpF). -/
structure Predictor (α : Type) where
  model : α → NpF
  y_mean : Option NpF
  y_std : Option NpF

/-- Elementwise standardization (y - m) / s, the broadcast expression used on
each label array in normalize (predictor.py lines 47-48). -/
def standardize (m s : NpF) (ys : List NpF) : List NpF :=
  ys.map (fun v => npDiv (npSub v m) s)

/-- Predictor.normalize (predictor.py lines 42-49): stores the population mean
and standard deviation of y_train in self.y_mean / self.y_std, then returns
y_train standardized and every array of other_ys standardized with those same
train-derived statistics.  The *other_ys varargs tuple is the list argument. -/
def normalize (sq : ℚ → ℚ) (P : Predictor α) (y_train : List NpF)
    (other_ys : List (List NpF)) :
    Predictor α × List NpF × List (List NpF) :=
  let m := npMean y_train
  let s := npStd sq y_train
  let P2 : Predictor α := { P with y_mean := some m, y_std := some s }
  (P2, standardize m s y_train, other_ys.map (standardize m s))

/-- Modelled from the spec: calculate_rmse from util.py, which is imported by
predictor.py (line 15) but is not under src/.  Spec section 4.1: evaluate
computes RMSE against y; spec sections 7-8: on an empty subset the metric is
NaN.  Root of the mean squared error; the mean of an empty array is NaN and
NaN propagates through the square root, matching the numpy pipeline. -/
def calculate_rmse (sq : ℚ → ℚ) (y y_pred : List NpF) : NpF :=
  npSqrt sq (npMean (List.zipWith (fun a b => npSq (npSub a b)) y y_pred))

/-- Modelled from the spec: calculate_mae from util.py, which is imported by
predictor.py (line 15) but is not under src/.  Spec section 4.1: evaluate
computes MAE against y; spec sections 7-8: on an empty subset the metric is
NaN.  Mean absolute error; the mean of an empty array is NaN. -/
def calculate_mae (y y_pred : List NpF) : NpF :=
  npMean (List.zipWith (fun a b => npAbs (npSub a b)) y y_pred)

/-- The message of the exception raised by Predictor.predict (line 201). -/
def missingStatsMsg : String := "Missing mean and/or std of training data"

/-- The message of the TypeError Python raises when self.y_std is None and
evaluate computes self.y_std**2.0 (predictor.py line 210). -/
def nonePowMsg : String :=
  "TypeError: unsupported operand types for pow: NoneType and float"

/-- Predictor.predict (predictor.py lines 195-203): the flattened model output
(one scalar per row) is returned as-is when norm is true; otherwise it is
denormalized as y * y_std + y_mean, after raising when y_mean or y_std is
still unset. -/
def predict (P : Predictor α) (x : List α) (norm : Bool) :
    Except String (List NpF) :=
  let y_norm := x.map P.model
  if norm then Except.ok y_norm
  else
    match P.y_mean, P.y_std with
    | some m, some s => Except.ok (y_norm.map (fun v => npAdd (npMul v s) m))
    | _, _ => Except.error missingStatsMsg

/-- Predictor.evaluate (predictor.py lines 205-212): predicts (the extra
.flatten() on line 206 is the identity on a 1-D prediction array), computes
RMSE and MAE between y and the prediction, and when norm is true rescales
both metrics by self.y_std**2.0 before returning them.  When self.y_std is
still Python None, that power expression raises a TypeError. -/
def evaluate (sq : ℚ → ℚ) (P : Predictor α) (x : List α) (y : List NpF)
    (norm : Bool) : Except String (NpF × NpF) :=
  match predict P x norm with
  | Except.error e => Except.error e
  | Except.ok y_pred =>
    let rmse := calculate_rmse sq y y_pred
    let mae := calculate_mae y y_pred
    if norm then
      match P.y_std with
      | none => Except.error nonePowMsg
      | some s => Except.ok (npMul (npSq s) rmse, npMul (npSq s) mae)
    else Except.ok (rmse, mae)

/-- The metric pair evaluate returns on the norm=true branch when y_std holds
the value s: each raw metric against the flattened prediction, rescaled by
s squared (predictor.py lines 206-210). -/
def evalTrue (sq : ℚ → ℚ) (mdl : α → NpF) (s : NpF) (x : List α)
    (y : List NpF) : NpF × NpF :=
  (npMul (npSq s) (calculate_rmse sq y (x.map mdl)),
   npMul (npSq s) (calculate_mae y (x.map mdl)))

/-- The per-fold metric reporting of Predictor.kfcv_train (predictor.py lines
100-109), instrumented with a log of the subsets evaluate is actually invoked
on, in invocation order.  The code guards only the inner-validation and test
subsets with a size check (lines 101 and 106), substituting the np.NaN
literal pair (modelled (none, none)) without calling evaluate; the train and
outer-validation subsets are passed to evaluate unconditionally (lines 100
and 105).  All four evaluations use norm=true. -/
def foldMetrics (sq : ℚ → ℚ) (P : Predictor α)
    (x_tr : List α) (y_tr : List NpF) (x_iv : List α) (y_iv : List NpF)
    (x_ov : List α) (y_ov : List NpF) (x_te : List α) (y_te : List NpF) :
    Except String
      (((NpF × NpF) × (NpF × NpF) × (NpF × NpF) × (NpF × NpF)) ×
        List String) := do
  let mTr ← evaluate sq P x_tr y_tr true
  let rIv ←
    if x_iv.length ≠ 0 then do
      let r ← evaluate sq P x_iv y_iv true
      pure (r, ["inner_val"])
    else pure (((none : NpF), (none : NpF)), ([] : List String))
  let mOv ← evaluate sq P x_ov y_ov true
  let rTe ←
    if x_te.length ≠ 0 then do
      let r ← evaluate sq P x_te y_te true
      pure (r, ["test"])
    else pure (((none : NpF), (none : NpF)), ([] : List String))
  pure ((mTr, rIv.1, mOv, rTe.1),
        ["train"] ++ rIv.2 ++ ["outer_val"] ++ rTe.2)

/-- The test-split preamble of Predictor.kfcv_train (predictor.py lines
71-77): when test_data is supplied, test_split is forced to 0 before the
external splitter runs, and the supplied pair then replaces the computed test
subset.  The external split_test_from_train_and_val call (closed over x, y,
names and shuffle seed 7) is the abstract function argument, mapping the
effective testing ratio to (x_test, y_test, x_train_and_val, y_train_and_val).
The returned triple (effective split, test pair, train-and-val pair) is what
the rest of kfcv_train consumes. -/
def kfcvTestSetup (splitter : ℚ → List α × List NpF × List α × List NpF)
    (test_split : ℚ) (test_data : Option (List α × List NpF)) :
    ℚ × (List α × List NpF) × (List α × List NpF) :=
  let ts : ℚ := match test_data with
    | some _ => 0
    | none => test_split
  let r := splitter ts
  match test_data with
  | some td => (ts, td, r.2.2)
  | none => (ts, (r.1, r.2.1), r.2.2)

/-- The test-split preamble of Predictor.full_train (predictor.py lines
134-138), identical to the kfcv_train preamble except that the literal is
0.0 (the same rational 0). -/
def fullTrainSetup (splitter : ℚ → List α × List NpF × List α × List NpF)
    (test_split : ℚ) (test_data : Option (List α × List NpF)) :
    ℚ × (List α × List NpF) × (List α × List NpF) :=
  let ts : ℚ := match test_data with
    | some _ => 0
    | none => test_split
  let r := splitter ts
  match test_data with
  | some td => (ts, td, r.2.2)
  | none => (ts, (r.1, r.2.1), r.2.2)

/-- A filesystem: a partial map from path strings to file contents.  The
content type is a parameter; contents are produced by external serializers
(the model structure/weights writers and pickle), which are opaque here. -/
def FS (C : Type) := String → Option C

/-- Writing a file: the path now holds the new content, everything else is
unchanged. -/
def fsWrite (fs : FS C) (p : String) (c : C) : FS C :=
  fun q => if q = p then some c else fs q

/-- shutil.move of a file src to dst (src and dst distinct here): dst now
holds what src held, src is gone, everything else is unchanged; a file
already at dst is silently replaced. -/
def fsMove (fs : FS C) (src dst : String) : FS C :=
  fun q => if q = src then none else if q = dst then fs src else fs q

/-- One backup step of Predictor.save_model (predictor.py lines 182-191):
if a file exists at src, it is renamed to dst, replacing any prior file
there; otherwise nothing happens. -/
def backupIfExists (fs : FS C) (src dst : String) : FS C :=
  if (fs src).isSome then fsMove fs src dst else fs

/-- Predictor.save_model as a filesystem transformer (predictor.py lines
177-193): each of the three artifact files at model_path that already exists
is renamed to its _backup sibling, then the new artifacts are written.  The
json and h5 contents jN and hN model what the external
rmgpy save_model routine writes for the structure and weights files
(Modelled from the spec, section 4.1: the external save routine writes the
new structure/weights at model_path; rmgpy is an external library);
aN models the pickle of the (y_mean, y_std) pair written on line 193. -/
def saveModelFs (fs : FS C) (model_path : String) (jN hN aN : C) : FS C :=
  fsWrite
    (fsWrite
      (fsWrite
        (backupIfExists
          (backupIfExists
            (backupIfExists fs (model_path ++ ".json")
              (model_path ++ "_backup.json"))
            (model_path ++ ".h5") (model_path ++ "_backup.h5"))
          (model_path ++ ".attr") (model_path ++ "_backup.attr"))
        (model_path ++ ".json") jN)
      (model_path ++ ".h5") hN)
    (model_path ++ ".attr") aN

/-- One iteration of the fold loop of Predictor.kfcv_train restricted to the
state it threads across folds that the normalization touches (predictor.py
lines 84-98): line 88 rebinds y_train, y_inner_val, y_outer_val AND y_test to
the outputs of normalize, so the y_test name carries the standardized array
into the next iteration.  The y_train, y_inner_val, y_outer_val names are
freshly assigned from prepare_data_one_fold at line 85 at the top of every
iteration (the per-fold triple is the abstract argument fT), so only y_test
accumulates.  train_model (line 90) replaces self.model and returns losses;
it does not modify the label arrays, and neither do evaluate, save_model or
the reset at the end of the fold, so the trained models enter the state as
the abstract per-fold function tm. -/
def kfcvFoldStep (sq : ℚ → ℚ) (tm : α → NpF) (P : Predictor α)
    (y_tr y_iv y_ov y_te : List NpF) : Predictor α × List NpF :=
  let r := normalize sq P y_tr [y_iv, y_ov, y_te]
  let P2 := r.1
  let y_te2 := r.2.2.getD 2 []
  (⟨tm, P2.y_mean, P2.y_std⟩, y_te2)

/-- The fold loop of Predictor.kfcv_train run for n folds (fold indices
0, ..., n-1 in order), threading the Predictor state and the y_test array;
fT k is the (y_train, y_inner_val, y_outer_val) triple prepare_data_one_fold
yields for fold k, and tm k the model train_model returns in fold k.  The
value (kfcvLoop ... (k+1)).2 is exactly the y_test passed to train_model and
to evaluate during fold k (it is rebound at line 88 before either use and
not touched again within the fold). -/
def kfcvLoop (sq : ℚ → ℚ) (tm : ℕ → α → NpF)
    (fT : ℕ → List NpF × List NpF × List NpF) (P0 : Predictor α)
    (y0 : List NpF) : ℕ → Predictor α × List NpF
  | 0 => (P0, y0)
  | k + 1 =>
    let s := kfcvLoop sq tm fT P0 y0 k
    kfcvFoldStep sq (tm k) s.1 (fT k).1 (fT k).2.1 (fT k).2.2 s.2

/-- n successive standardizations of an array, the j-th (j = 0, ..., n-1)
using the population mean and standard deviation of the training labels of fold j
labels.  This is the claim-side description the fold loop is compared to. -/
def iterStd (sq : ℚ → ℚ) (fT : ℕ → List NpF × List NpF × List NpF)
    (y0 : List NpF) : ℕ → List NpF
  | 0 => y0
  | n + 1 =>
    standardize (npMean (fT n).1) (npStd sq (fT n).1) (iterStd sq fT y0 n)

/-- Concrete two-fold training-label data used to separate repeated from
single standardization: fold 0 trains on values 0 and 2 (mean 1, population
std 1 under the identity square root), fold 1 on values 0 and 4 (mean 2,
population std 4 under the identity square root). -/
def twoFoldData : ℕ → List NpF × List NpF × List NpF
  | 0 => ([some 0, some 2], [], [])
  | _ => ([some 0, some 4], [], [])

theorem npMul_none_right (a : NpF) : npMul a none = none := by
  cases a <;> rfl

theorem npMean_nil : npMean [] = none := by
  simp [npMean, npSum, npDiv]

theorem calculate_rmse_nil (sq : ℚ → ℚ) : calculate_rmse sq [] [] = none := by
  simp [calculate_rmse, npSqrt, npMean_nil]

theorem calculate_mae_nil : calculate_mae [] [] = none := by
  simp [calculate_mae, npMean_nil]

/-- Claim C1: normalize(y_train, *other_ys) sets y_mean to the population
mean of y_train and y_std to the population standard deviation of y_train
(both are functions of y_train alone, so the statistics never draw on the
other arrays), and returns y_train standardized together with every array of
other_ys standardized by those same train-derived statistics. -/
theorem c1_normalize_uses_train_stats (sq : ℚ → ℚ) (mdl : α → NpF)
    (m0 s0 : Option NpF) (y_train : List NpF) (other_ys : List (List NpF)) :
    (normalize sq ⟨mdl, m0, s0⟩ y_train other_ys).1.y_mean
        = some (npMean y_train)
    ∧ (normalize sq ⟨mdl, m0, s0⟩ y_train other_ys).1.y_std
        = some (npStd sq y_train)
    ∧ (normalize sq ⟨mdl, m0, s0⟩ y_train other_ys).2.1
        = standardize (npMean y_train) (npStd sq y_train) y_train
    ∧ (normalize sq ⟨mdl, m0, s0⟩ y_train other_ys).2.2
        = other_ys.map (standardize (npMean y_train) (npStd sq y_train)) :=
  ⟨rfl, rfl, rfl, rfl⟩

/-- Claim C2: with y_std holding a value s, evaluate(x, y, norm=True) returns
the raw RMSE and MAE between y and the flattened prediction, each multiplied
by s squared (the y_std**2.0 rescaling), and evaluate(x, y, norm=False)
returns the raw metrics unscaled. -/
theorem c2_evaluate_rescales_by_std_sq (sq : ℚ → ℚ) (mdl : α → NpF)
    (m0 : Option NpF) (s m : NpF) (x : List α) (y : List NpF) :
    evaluate sq ⟨mdl, m0, some s⟩ x y true
      = Except.ok (npMul (npSq s) (calculate_rmse sq y (x.map mdl)),
                   npMul (npSq s) (calculate_mae y (x.map mdl)))
    ∧ evaluate sq ⟨mdl, some m, some s⟩ x y false
      = Except.ok
          (calculate_rmse sq y
            ((x.map mdl).map (fun v => npAdd (npMul v s) m)),
           calculate_mae y
            ((x.map mdl).map (fun v => npAdd (npMul v s) m))) :=
  ⟨rfl, rfl⟩

/-- Claim C3: on an empty subset (zero feature rows and zero labels), evaluate
returns NaN for both RMSE and MAE and does not raise, in both the normalized
and the denormalized branch (statistics are set here, as they are at every
evaluate call site in the module, which all run after normalize). -/
theorem c3_evaluate_empty_nan (sq : ℚ → ℚ) (mdl : α → NpF) (m s : NpF)
    (norm : Bool) :
    evaluate sq ⟨mdl, some m, some s⟩ ([] : List α) ([] : List NpF) norm
      = Except.ok (none, none) := by
  cases norm <;>
    simp [evaluate, predict, calculate_rmse_nil, calculate_mae_nil,
      npMul_none_right]

/-- Claim C5: predict(x, norm=False) raises the usage error exactly when
y_mean or y_std is unset: it raises with the descriptive message when either
statistic is Python None, and otherwise returns the flattened model output
denormalized as y * y_std + y_mean (in particular it does not raise). -/
theorem c5_predict_denorm_raises_iff_unset (mdl : α → NpF) (m0 s0 : Option NpF)
    (m s : NpF) (x : List α) :
    predict ⟨mdl, none, s0⟩ x false = Except.error missingStatsMsg
    ∧ predict ⟨mdl, m0, none⟩ x false = Except.error missingStatsMsg
    ∧ predict ⟨mdl, some m, some s⟩ x false
        = Except.ok ((x.map mdl).map (fun v => npAdd (npMul v s) m))
    ∧ predict ⟨mdl, some m, some s⟩ x false ≠ Except.error missingStatsMsg := by
  refine ⟨?_, ?_, rfl, fun h => Except.noConfusion h⟩
  · cases s0 <;> rfl
  · cases m0 <;> rfl

/-- Claim C6: with y_mean and y_std set to values m and s (as normalize
leaves them), predict(x, norm=False) equals predict(x, norm=True) rescaled
elementwise by y * y_std + y_mean — exactly, since the model is a fixed
function of the input here. -/
theorem c6_predict_roundtrip (mdl : α → NpF) (m s : NpF) (x : List α) :
    predict ⟨mdl, some m, some s⟩ x false
      = (predict ⟨mdl, some m, some s⟩ x true).map
          (List.map (fun v => npAdd (npMul v s) m)) :=
  rfl

/-- Claim C8: in both kfcv_train and full_train, a supplied test_data pair
forces the test split handed to the external splitter to 0, and the supplied
pair — not the test subset the splitter computed — is what the returned state
(consumed by all subsequent training, evaluation and normalization steps)
carries as the test set; the train-and-val part is the splitter output at
ratio 0. -/
theorem c8_test_data_override
    (splitter : ℚ → List α × List NpF × List α × List NpF) (ts : ℚ)
    (td : List α × List NpF) :
    kfcvTestSetup splitter ts (some td) = (0, td, (splitter 0).2.2)
    ∧ fullTrainSetup splitter ts (some td) = (0, td, (splitter 0).2.2) :=
  ⟨rfl, rfl⟩

/-- Claim C10: predict(x, norm=True) returns the flattened model output for
every predictor state — the unset-statistics check sits only on the
norm=False branch, so no usage error is ever raised here — and evaluate with
norm=True on a predictor whose y_std is unset runs all the way to the
y_std**2.0 rescaling, which then fails as a TypeError, a different message
from the descriptive usage error. -/
theorem c10_predict_norm_never_raises (sq : ℚ → ℚ) (P : Predictor α)
    (mdl : α → NpF) (m0 : Option NpF) (x : List α) (y : List NpF) :
    predict P x true = Except.ok (x.map P.model)
    ∧ evaluate sq ⟨mdl, m0, none⟩ x y true = Except.error nonePowMsg
    ∧ nonePowMsg ≠ missingStatsMsg := by
  refine ⟨rfl, rfl, ?_⟩
  decide

theorem evaluate_true_ok (sq : ℚ → ℚ) (mdl : α → NpF) (m0 : Option NpF)
    (s : NpF) (x : List α) (y : List NpF) :
    evaluate sq ⟨mdl, m0, some s⟩ x y true
      = Except.ok (evalTrue sq mdl s x y) :=
  rfl

/-- Claim C4, amended: in the per-fold metric reporting of kfcv_train, only
the inner-validation and test subsets short-circuit on zero rows to the
np.NaN literal pair without evaluate being invoked; the train and
outer-validation subsets are passed to evaluate unconditionally (they appear
in the invocation log whatever their size), and every nonempty guarded
subset is computed by evaluate.  An empty subset handed to evaluate still
comes back as NaN metrics, but through the metric functions. -/
theorem c4_fold_metrics_guards (sq : ℚ → ℚ) (mdl : α → NpF) (m0 : Option NpF)
    (s : NpF) (x_tr x_iv x_ov x_te : List α) (y_tr y_iv y_ov y_te : List NpF) :
    foldMetrics sq ⟨mdl, m0, some s⟩ x_tr y_tr x_iv y_iv x_ov y_ov x_te y_te
      = Except.ok
          ((evalTrue sq mdl s x_tr y_tr,
            (if x_iv.length ≠ 0 then evalTrue sq mdl s x_iv y_iv
             else (none, none)),
            evalTrue sq mdl s x_ov y_ov,
            (if x_te.length ≠ 0 then evalTrue sq mdl s x_te y_te
             else (none, none))),
           ["train"] ++ (if x_iv.length ≠ 0 then ["inner_val"] else [])
             ++ ["outer_val"]
             ++ (if x_te.length ≠ 0 then ["test"] else []))
    ∧ evalTrue sq mdl s ([] : List α) ([] : List NpF) = (none, none) := by
  constructor
  · by_cases hiv : x_iv.length = 0 <;> by_cases hte : x_te.length = 0 <;>
      simp [foldMetrics, evaluate_true_ok, hiv, hte, bind, Except.bind, pure,
        Except.pure]
  · simp [evalTrue, calculate_rmse_nil, calculate_mae_nil, npMul_none_right]

/-- Claim C4 counterexample: a fold whose outer-validation subset has zero
rows.  The claim says the metric functions are then not invoked on it, but
the invocation log of the reporting block records an evaluate call on the
empty outer-validation subset (the code guards only inner-val and test); the
reported pair is NaN only because evaluate itself returns NaN on empty
input. -/
theorem c4_counterexample_outer_val_evaluated :
    (foldMetrics id
        (⟨fun _ => some 0, some (some 0), some (some 1)⟩ : Predictor Unit)
        [()] [some 0] [()] [some 0] [] [] [()] [some 0]).toOption.map
        (fun r => r.2)
      = some ["train", "inner_val", "outer_val", "test"]
    ∧ (foldMetrics id
        (⟨fun _ => some 0, some (some 0), some (some 1)⟩ : Predictor Unit)
        [()] [some 0] [()] [some 0] [] [] [()] [some 0]).toOption.map
        (fun r => r.1.2.2.1)
      = some ((none : NpF), (none : NpF))
    ∧ "outer_val" ∈ ["train", "inner_val", "outer_val", "test"]
    ∧ ([] : List Unit).length = 0 := by
  refine ⟨by decide, by decide, ?_, rfl⟩
  simp

theorem pathNe (p : String) {a b : String} (h : a ≠ b) : p ++ a ≠ p ++ b := by
  intro hpq
  apply h
  have hd := congrArg String.data hpq
  simp only [String.data_append] at hd
  exact String.ext (List.append_cancel_left hd)

theorem fsWrite_at (fs : FS C) (p : String) (c : C) : fsWrite fs p c p = some c := by
  simp [fsWrite]

theorem fsWrite_ne (fs : FS C) {p q : String} (c : C) (h : q ≠ p) :
    fsWrite fs p c q = fs q := by
  simp [fsWrite, h]

theorem backupIfExists_ne (fs : FS C) {src dst q : String} (h1 : q ≠ src)
    (h2 : q ≠ dst) : backupIfExists fs src dst q = fs q := by
  by_cases hs : (fs src).isSome <;> simp [backupIfExists, fsMove, hs, h1, h2]

theorem backupIfExists_dst (fs : FS C) {src dst : String} (h : dst ≠ src) :
    backupIfExists fs src dst dst
      = if (fs src).isSome then fs src else fs dst := by
  by_cases hs : (fs src).isSome <;> simp [backupIfExists, fsMove, hs, h]

theorem saveModelFs_json (fs : FS C) (p : String) (jN hN aN : C) :
    saveModelFs fs p jN hN aN (p ++ ".json") = some jN := by
  have h13 : p ++ ".json" ≠ p ++ ".attr" := pathNe p (by decide)
  have h12 : p ++ ".json" ≠ p ++ ".h5" := pathNe p (by decide)
  unfold saveModelFs
  rw [fsWrite_ne _ _ h13, fsWrite_ne _ _ h12, fsWrite_at]

theorem saveModelFs_h5 (fs : FS C) (p : String) (jN hN aN : C) :
    saveModelFs fs p jN hN aN (p ++ ".h5") = some hN := by
  have h23 : p ++ ".h5" ≠ p ++ ".attr" := pathNe p (by decide)
  unfold saveModelFs
  rw [fsWrite_ne _ _ h23, fsWrite_at]

theorem saveModelFs_attr (fs : FS C) (p : String) (jN hN aN : C) :
    saveModelFs fs p jN hN aN (p ++ ".attr") = some aN := by
  unfold saveModelFs
  rw [fsWrite_at]

theorem saveModelFs_bjson (fs : FS C) (p : String) (jN hN aN : C) :
    saveModelFs fs p jN hN aN (p ++ "_backup.json")
      = (if (fs (p ++ ".json")).isSome then fs (p ++ ".json")
         else fs (p ++ "_backup.json")) := by
  have hb3 : p ++ "_backup.json" ≠ p ++ ".attr" := pathNe p (by decide)
  have hb2 : p ++ "_backup.json" ≠ p ++ ".h5" := pathNe p (by decide)
  have hb1 : p ++ "_backup.json" ≠ p ++ ".json" := pathNe p (by decide)
  have hbb3 : p ++ "_backup.json" ≠ p ++ "_backup.attr" := pathNe p (by decide)
  have hbb2 : p ++ "_backup.json" ≠ p ++ "_backup.h5" := pathNe p (by decide)
  unfold saveModelFs
  rw [fsWrite_ne _ _ hb3, fsWrite_ne _ _ hb2, fsWrite_ne _ _ hb1,
      backupIfExists_ne _ hb3 hbb3, backupIfExists_ne _ hb2 hbb2,
      backupIfExists_dst _ hb1]

theorem saveModelFs_bh5 (fs : FS C) (p : String) (jN hN aN : C) :
    saveModelFs fs p jN hN aN (p ++ "_backup.h5")
      = (if (fs (p ++ ".h5")).isSome then fs (p ++ ".h5")
         else fs (p ++ "_backup.h5")) := by
  have hb3 : p ++ "_backup.h5" ≠ p ++ ".attr" := pathNe p (by decide)
  have hb2 : p ++ "_backup.h5" ≠ p ++ ".h5" := pathNe p (by decide)
  have hb1 : p ++ "_backup.h5" ≠ p ++ ".json" := pathNe p (by decide)
  have hbb3 : p ++ "_backup.h5" ≠ p ++ "_backup.attr" := pathNe p (by decide)
  have hbb1 : p ++ "_backup.h5" ≠ p ++ "_backup.json" := pathNe p (by decide)
  have h21 : p ++ ".h5" ≠ p ++ ".json" := pathNe p (by decide)
  have h2b1 : p ++ ".h5" ≠ p ++ "_backup.json" := pathNe p (by decide)
  unfold saveModelFs
  rw [fsWrite_ne _ _ hb3, fsWrite_ne _ _ hb2, fsWrite_ne _ _ hb1,
      backupIfExists_ne _ hb3 hbb3, backupIfExists_dst _ hb2,
      backupIfExists_ne _ h21 h2b1, backupIfExists_ne _ hb1 hbb1]

theorem saveModelFs_battr (fs : FS C) (p : String) (jN hN aN : C) :
    saveModelFs fs p jN hN aN (p ++ "_backup.attr")
      = (if (fs (p ++ ".attr")).isSome then fs (p ++ ".attr")
         else fs (p ++ "_backup.attr")) := by
  have hb3 : p ++ "_backup.attr" ≠ p ++ ".attr" := pathNe p (by decide)
  have hb2 : p ++ "_backup.attr" ≠ p ++ ".h5" := pathNe p (by decide)
  have hb1 : p ++ "_backup.attr" ≠ p ++ ".json" := pathNe p (by decide)
  have hbb2 : p ++ "_backup.attr" ≠ p ++ "_backup.h5" := pathNe p (by decide)
  have hbb1 : p ++ "_backup.attr" ≠ p ++ "_backup.json" := pathNe p (by decide)
  have h32 : p ++ ".attr" ≠ p ++ ".h5" := pathNe p (by decide)
  have h31 : p ++ ".attr" ≠ p ++ ".json" := pathNe p (by decide)
  have h3b2 : p ++ ".attr" ≠ p ++ "_backup.h5" := pathNe p (by decide)
  have h3b1 : p ++ ".attr" ≠ p ++ "_backup.json" := pathNe p (by decide)
  unfold saveModelFs
  rw [fsWrite_ne _ _ hb3, fsWrite_ne _ _ hb2, fsWrite_ne _ _ hb1,
      backupIfExists_dst _ hb3,
      backupIfExists_ne _ h32 h3b2, backupIfExists_ne _ h31 h3b1,
      backupIfExists_ne _ hb2 hbb2, backupIfExists_ne _ hb1 hbb1]

/-- Claim C7: save_model renames each of the three artifact files at the path
that already exists to its _backup sibling, replacing any prior backup,
before writing the new artifacts — after one call each primary file holds the
new content and each _backup file holds the old primary when one existed
(otherwise the prior backup survives) — and consequently after two successive
calls on the same path the _backup files hold the contents of the first call and
the primary files the contents of the second call, whatever the filesystem held
before. -/
theorem c7_save_model_backup_rotation (C : Type) (fs : FS C) (p : String)
    (j1 h1 a1 j2 h2 a2 : C) :
    saveModelFs fs p j1 h1 a1 (p ++ ".json") = some j1
    ∧ saveModelFs fs p j1 h1 a1 (p ++ ".h5") = some h1
    ∧ saveModelFs fs p j1 h1 a1 (p ++ ".attr") = some a1
    ∧ saveModelFs fs p j1 h1 a1 (p ++ "_backup.json")
        = (if (fs (p ++ ".json")).isSome then fs (p ++ ".json")
           else fs (p ++ "_backup.json"))
    ∧ saveModelFs fs p j1 h1 a1 (p ++ "_backup.h5")
        = (if (fs (p ++ ".h5")).isSome then fs (p ++ ".h5")
           else fs (p ++ "_backup.h5"))
    ∧ saveModelFs fs p j1 h1 a1 (p ++ "_backup.attr")
        = (if (fs (p ++ ".attr")).isSome then fs (p ++ ".attr")
           else fs (p ++ "_backup.attr"))
    ∧ saveModelFs (saveModelFs fs p j1 h1 a1) p j2 h2 a2 (p ++ ".json")
        = some j2
    ∧ saveModelFs (saveModelFs fs p j1 h1 a1) p j2 h2 a2 (p ++ ".h5")
        = some h2
    ∧ saveModelFs (saveModelFs fs p j1 h1 a1) p j2 h2 a2 (p ++ ".attr")
        = some a2
    ∧ saveModelFs (saveModelFs fs p j1 h1 a1) p j2 h2 a2 (p ++ "_backup.json")
        = some j1
    ∧ saveModelFs (saveModelFs fs p j1 h1 a1) p j2 h2 a2 (p ++ "_backup.h5")
        = some h1
    ∧ saveModelFs (saveModelFs fs p j1 h1 a1) p j2 h2 a2 (p ++ "_backup.attr")
        = some a1 := by
  refine ⟨saveModelFs_json fs p j1 h1 a1, saveModelFs_h5 fs p j1 h1 a1,
    saveModelFs_attr fs p j1 h1 a1, saveModelFs_bjson fs p j1 h1 a1,
    saveModelFs_bh5 fs p j1 h1 a1, saveModelFs_battr fs p j1 h1 a1, ?_, ?_,
    ?_, ?_, ?_, ?_⟩
  · exact saveModelFs_json _ p j2 h2 a2
  · exact saveModelFs_h5 _ p j2 h2 a2
  · exact saveModelFs_attr _ p j2 h2 a2
  · rw [saveModelFs_bjson _ p j2 h2 a2, saveModelFs_json fs p j1 h1 a1]
    simp
  · rw [saveModelFs_bh5 _ p j2 h2 a2, saveModelFs_h5 fs p j1 h1 a1]
    simp
  · rw [saveModelFs_battr _ p j2 h2 a2, saveModelFs_attr fs p j1 h1 a1]
    simp

theorem kfcvLoop_snd_eq (sq : ℚ → ℚ) (tm : ℕ → α → NpF)
    (fT : ℕ → List NpF × List NpF × List NpF) (P0 : Predictor α)
    (y0 : List NpF) : ∀ n, (kfcvLoop sq tm fT P0 y0 n).2 = iterStd sq fT y0 n
  | 0 => rfl
  | n + 1 => by
    simp only [kfcvLoop, kfcvFoldStep, normalize, iterStd, List.map_cons,
      List.map_nil]
    rw [kfcvLoop_snd_eq sq tm fT P0 y0 n]
    rfl

/-- Claim C9: in kfcv_train with at least two folds, the y_test array is
rebound to its normalized image in every fold iteration, on top of the
normalization done by the previous fold: the y_test passed to the trainer and to
evaluate during fold k+1 (any fold index above 0) is the result of k+2
successive standardizations, the j-th using the training mean and
standard deviation.  It is not the original test labels standardized once by
the statistics of the current fold: with identity square root and two concrete
folds training on values 0, 2 and then 0, 4, the original test label 3 is
passed to fold 1 as ((3 - 1) / 1 - 2) / 4 = 0, while a single
standardization by the fold 1 statistics would give (3 - 2) / 4 = 1/4. -/
theorem c9_test_labels_renormalized_each_fold (sq : ℚ → ℚ) (tm : ℕ → α → NpF)
    (fT : ℕ → List NpF × List NpF × List NpF) (P0 : Predictor α)
    (y0 : List NpF) (k : ℕ) :
    (kfcvLoop sq tm fT P0 y0 (k + 2)).2 = iterStd sq fT y0 (k + 2)
    ∧ (kfcvLoop id (fun _ _ => none) twoFoldData
          (⟨fun _ => none, none, none⟩ : Predictor Unit) [some 3] 2).2
        ≠ standardize (npMean (twoFoldData 1).1) (npStd id (twoFoldData 1).1)
            [some 3] := by
  refine ⟨kfcvLoop_snd_eq sq tm fT P0 y0 (k + 2), ?_⟩
  have hL : (kfcvLoop id (fun _ _ => none) twoFoldData
      (⟨fun _ => none, none, none⟩ : Predictor Unit) [some 3] 2).2
      = [some 0] := by
    norm_num [kfcvLoop, kfcvFoldStep, normalize, twoFoldData, standardize,
      npMean, npSum, npStd, npVarPop, npSqrt, npDiv, npSub, npSq, npMul,
      npAdd, List.getD]
  have hR : standardize (npMean (twoFoldData 1).1)
      (npStd id (twoFoldData 1).1) [some 3] = [some (1 / 4)] := by
    norm_num [twoFoldData, standardize, npMean, npSum, npStd, npVarPop,
      npSqrt, npDiv, npSub, npSq, npMul, npAdd]
  rw [hL, hR]
  norm_num

theorem c5_witness :
    predict (⟨fun _ => some 0, none, none⟩ : Predictor Unit) [()] false
        = Except.error missingStatsMsg
    ∧ predict (⟨fun _ => some 0, none, none⟩ : Predictor Unit) [()] false
        = Except.error missingStatsMsg
    ∧ predict (⟨fun _ => some 0, some (some 0), some (some 1)⟩ : Predictor Unit)
        [()] false
        = Except.ok (([()].map (fun _ => (some 0 : NpF))).map
            (fun v => npAdd (npMul v (some 1)) (some 0)))
    ∧ predict (⟨fun _ => some 0, some (some 0), some (some 1)⟩ : Predictor Unit)
        [()] false ≠ Except.error missingStatsMsg :=
  c5_predict_denorm_raises_iff_unset (fun _ => some 0) none none (some 0)
    (some 1) [()]

theorem c9_witness :
    (kfcvLoop id (fun _ _ => none) twoFoldData
        (⟨fun _ => none, none, none⟩ : Predictor Unit) [some 3] 2).2
      = iterStd id twoFoldData [some 3] 2
    ∧ (kfcvLoop id (fun _ _ => none) twoFoldData
        (⟨fun _ => none, none, none⟩ : Predictor Unit) [some 3] 2).2
      ≠ standardize (npMean (twoFoldData 1).1) (npStd id (twoFoldData 1).1)
          [some 3] :=
  c9_test_labels_renormalized_each_fold id (fun _ _ => none) twoFoldData
    (⟨fun _ => none, none, none⟩ : Predictor Unit) [some 3] 0

theorem c10_witness :
    predict (⟨fun _ => some 0, none, none⟩ : Predictor Unit) [()] true
        = Except.ok ([()].map
            ((⟨fun _ => some 0, none, none⟩ : Predictor Unit)).model)
    ∧ evaluate id (⟨fun _ => some 0, none, none⟩ : Predictor Unit) [()]
        [some 0] true = Except.error nonePowMsg
    ∧ nonePowMsg ≠ missingStatsMsg :=
  c10_predict_norm_never_raises id
    (⟨fun _ => some 0, none, none⟩ : Predictor Unit) (fun _ => some 0) none
    [()] [some 0]
